import Mathlib

/-!
# Verification of the caching / rate-limiting / fallback layer

Shallow embedding of `utils/cache.py` (the `timed_cache`,
`rate_limited_api` and `adaptive_ttl_cache` decorators together with
`get_cache_stats`) and of the fallback orchestrator
`services/financials.py::fetch_financials` /
`services/base_service.py::BaseDataService.fetch_data`.

Python values that flow through the cache are modelled by the inductive
type `PyVal`; exceptions by `PyErr` (class name + message); `time.time()`
by an explicit `now : Nat` argument; the module-level `_cache` and
`_rate_limits` dictionaries by association lists threaded through each
call.  All code inside the `with _lock:` blocks is modelled as one atomic
step, which is exactly what the single re-entrant lock guarantees.
-/

/-- Model of the Python values relevant to the cache layer. -/
inductive PyVal where
  | none : PyVal
  | bool : Bool → PyVal
  | int : Int → PyVal
  | str : String → PyVal
  | list : List PyVal → PyVal
  | dict : List (String × PyVal) → PyVal
deriving Repr

/-- A Python exception, reduced to its class name and message
(`type(e).__name__` and `str(e)`), which is all the cache layer stores. -/
structure PyErr where
  kind : String
  msg : String
deriving Repr, DecidableEq

/-- Python truthiness for the modelled values: `None`, `False`, `0`, `""`,
`[]` and `{}` are falsy, everything else is truthy. -/
def truthy : PyVal → Bool
  | .none => false
  | .bool b => b
  | .int n => n != 0
  | .str s => s ≠ ""
  | .list xs => !xs.isEmpty
  | .dict kvs => !kvs.isEmpty

/-- `d.get(k)` on an association-list dict: value of the first binding of
`k`, if any. -/
def dictFind (kvs : List (String × PyVal)) (k : String) : Option PyVal :=
  (kvs.find? (fun p => p.1 = k)).map Prod.snd

/-- `d.get(k, default)`. -/
def dictGetD (kvs : List (String × PyVal)) (k : String) (dflt : PyVal) : PyVal :=
  (dictFind kvs k).getD dflt

/-- `len(v)` for sized values; `Option.none` when `len` would raise
`TypeError` (ints, bools, `None`). -/
def pyLen : PyVal → Option Nat
  | .str s => some s.length
  | .list xs => some xs.length
  | .dict kvs => some kvs.length
  | _ => Option.none

/-- `str(v)`, precise on the atoms the claims use (strings render as
themselves, which is what an f-string interpolates). -/
def pyStr : PyVal → String
  | .none => "None"
  | .bool b => if b then "True" else "False"
  | .int n => toString n
  | .str s => s
  | .list _ => "[...]"
  | .dict _ => "{...}"

/-- Outcome of looking an exception-class name up in the `builtins`
module, as `getattr(builtins, error_type)` does at
`utils/cache.py:166`. -/
inductive BuiltinLookup where
  | excClass    -- a builtin class with `issubclass(cls, Exception)`
  | nonExcClass -- a builtin class that is not an `Exception` subclass
  | absent      -- no builtin of that name, or not usable as a class
deriving Repr, DecidableEq

/-- Builtin exception classes (subclasses of `Exception`, constructible
from a single message argument) by name; a finite model of the CPython
`builtins` module restricted to the names exercised here. -/
def builtinExcNames : List String :=
  ["Exception", "ValueError", "TypeError", "KeyError", "IndexError",
   "AttributeError", "RuntimeError", "OSError", "ZeroDivisionError",
   "StopIteration", "TimeoutError", "ConnectionError", "ArithmeticError",
   "LookupError", "NameError", "ImportError", "NotImplementedError",
   "OverflowError", "PermissionError", "FileNotFoundError"]

/-- Builtin classes that are not `Exception` subclasses (direct
`BaseException` children). -/
def builtinNonExcNames : List String :=
  ["BaseException", "KeyboardInterrupt", "SystemExit", "GeneratorExit"]

/-- Model of `getattr(builtins, name)` followed by
`issubclass(·, Exception)`: names such as `RateLimitExceeded` (defined in
this repository, not in `builtins`) resolve to `absent`. -/
def builtinLookup (name : String) : BuiltinLookup :=
  if name ∈ builtinExcNames then .excClass
  else if name ∈ builtinNonExcNames then .nonExcClass
  else .absent

/-- One entry of the shared module-level `_cache` dict.  `timed_cache`
stores two-component pairs `(result, timestamp)` (`utils/cache.py:49`);
`adaptive_ttl_cache` stores three-component tuples
`(result, timestamp, ttl)` (`utils/cache.py:199,209`). -/
inductive CacheEntry where
  | timed : PyVal → Nat → CacheEntry
  | adaptive : PyVal → Nat → Nat → CacheEntry
deriving Repr

/-- The shared `_cache` map. -/
abbrev Cache := List (String × CacheEntry)

/-- Lookup in `_cache`. -/
def cacheFind (c : Cache) (k : String) : Option CacheEntry :=
  (List.find? (fun p => p.1 = k) c).map Prod.snd

/-- `_cache[key] = entry` (overwrite-or-insert). -/
def cacheInsert (c : Cache) (k : String) (e : CacheEntry) : Cache :=
  match c with
  | [] => [(k, e)]
  | (k₁, e₁) :: rest =>
      if k₁ = k then (k, e) :: rest else (k₁, e₁) :: cacheInsert rest k e

/-- `result` is shaped like a cached failure:
`isinstance(result, dict) and "error" in result and "error_type" in result`
(`utils/cache.py:156-160`).  Note this tests key *presence*, not
truthiness. -/
def isCachedErrorDict : PyVal → Bool
  | .dict kvs => (dictFind kvs "error").isSome && (dictFind kvs "error_type").isSome
  | _ => false

/-- Behaviour of a cache hit on a cached-failure dict
(`utils/cache.py:161-171`): resolve `error_type` in `builtins`; re-raise
that class when it is an `Exception` subclass — except that raising
`TypeError` or `AttributeError` is itself intercepted by the
`except (AttributeError, TypeError)` clause and replaced by a generic
`Exception`; a builtin non-`Exception` class makes the `if` fall through
so the dict is *returned*; any other name raises the generic
`Exception(f"{error_type}: {error_msg}")`. -/
def cachedErrorHit (result : PyVal) : Except PyErr PyVal :=
  let kvs := match result with | .dict kvs => kvs | _ => []
  let etv := dictGetD kvs "error_type" .none
  let em := pyStr (dictGetD kvs "error" (.str "Cached error"))
  match etv with
  | .str et =>
      match builtinLookup et with
      | .excClass =>
          if et = "TypeError" ∨ et = "AttributeError" then
            .error ⟨"Exception", et ++ ": " ++ em⟩
          else
            .error ⟨et, em⟩
      | .nonExcClass => .ok result
      | .absent => .error ⟨"Exception", et ++ ": " ++ em⟩
  | other => .error ⟨"Exception", pyStr other ++ ": " ++ em⟩

/-- TTL selection of `adaptive_ttl_cache` (`utils/cache.py:178-197`),
evaluated after `func` returned `result`.  Returns `.error` when the
selection itself raises, which happens for `len(result.get("data", []))`
on a truthy unsized `data` value. -/
def selectTTL (base_ttl max_ttl error_ttl : Nat) (result : PyVal) :
    Except PyErr Nat :=
  match result with
  | .none => .ok error_ttl
  | .dict kvs =>
      if truthy (dictGetD kvs "error" .none) then .ok error_ttl
      else
        let data := dictGetD kvs "data" .none
        if ¬ truthy data then .ok (base_ttl / 2)
        else
          match pyLen data with
          | Option.none => .error ⟨"TypeError", "object has no len()"⟩
          | some n =>
              if n = 0 then .ok (base_ttl / 2)
              else
                match data with
                | .list (_ :: _) => .ok max_ttl
                | _ => .ok base_ttl
  | _ => .ok base_ttl

/-- The dict cached in place of a result when `func` raised `e`
(`utils/cache.py:204-208`). -/
def errorResultDict (e : PyErr) : PyVal :=
  .dict [("error", .str e.msg), ("error_type", .str e.kind),
         ("is_cached_error", .bool true)]

/-- Result of one call through a cache wrapper: the outcome delivered to
the caller, the updated `_cache`, and whether the wrapped `func` was
invoked. -/
structure CallResult where
  outcome : Except PyErr PyVal
  cache : Cache
  invoked : Bool
deriving Repr

/-- Miss path of `adaptive_ttl_cache` (`utils/cache.py:174-210`): invoke
`func` (its behaviour is passed in as `fOutcome`); on success pick a TTL
and store `(result, now, ttl)`; on any exception — including one raised
by the TTL selection itself — store the failure dict with `error_ttl`
and re-raise. -/
def adaptiveMiss (base_ttl max_ttl error_ttl : Nat) (key : String)
    (fOutcome : Except PyErr PyVal) (now : Nat) (c : Cache) : CallResult :=
  match fOutcome with
  | .ok result =>
      match selectTTL base_ttl max_ttl error_ttl result with
      | .ok ttl =>
          ⟨.ok result, cacheInsert c key (.adaptive result now ttl), true⟩
      | .error e =>
          ⟨.error e, cacheInsert c key (.adaptive (errorResultDict e) now error_ttl), true⟩
  | .error e =>
      ⟨.error e, cacheInsert c key (.adaptive (errorResultDict e) now error_ttl), true⟩

/-- One call through the wrapper produced by `adaptive_ttl_cache`
(`utils/cache.py:146-210`).  `key` stands for
`f"{func.__name__}:{str(args)}:{str(kwargs)}"`, `fOutcome` for what
invoking `func` now would do, `now` for `time.time()`.  A two-component
`timed_cache` entry under the same key makes the unpacking
`result, timestamp, ttl = _cache[key]` raise `ValueError`. -/
def adaptiveCall (base_ttl max_ttl error_ttl : Nat) (key : String)
    (fOutcome : Except PyErr PyVal) (now : Nat) (c : Cache) : CallResult :=
  match cacheFind c key with
  | some (.adaptive result ts ttl) =>
      if now - ts < ttl then
        if isCachedErrorDict result then ⟨cachedErrorHit result, c, false⟩
        else ⟨.ok result, c, false⟩
      else adaptiveMiss base_ttl max_ttl error_ttl key fOutcome now c
  | some (.timed _ _) =>
      ⟨.error ⟨"ValueError", "not enough values to unpack (expected 3, got 2)"⟩,
       c, false⟩
  | Option.none => adaptiveMiss base_ttl max_ttl error_ttl key fOutcome now c

/-- One call through the wrapper produced by `timed_cache`
(`utils/cache.py:36-50`): return a non-expired cached result, otherwise
invoke `func` and store `(result, now)`; an exception from `func`
propagates uncached.  A three-component `adaptive_ttl_cache` entry under
the same key makes `result, timestamp = _cache[key]` raise
`ValueError`. -/
def timedCall (expire_seconds : Nat) (key : String)
    (fOutcome : Except PyErr PyVal) (now : Nat) (c : Cache) : CallResult :=
  match cacheFind c key with
  | some (.timed result ts) =>
      if now - ts < expire_seconds then ⟨.ok result, c, false⟩
      else
        match fOutcome with
        | .ok result => ⟨.ok result, cacheInsert c key (.timed result now), true⟩
        | .error e => ⟨.error e, c, true⟩
  | some (.adaptive _ _ _) =>
      ⟨.error ⟨"ValueError", "too many values to unpack (expected 2)"⟩, c, false⟩
  | Option.none =>
      match fOutcome with
      | .ok result => ⟨.ok result, cacheInsert c key (.timed result now), true⟩
      | .error e => ⟨.error e, c, true⟩

/-! ## Rate limiter and backoff retrier (`utils/cache.py:57-131`) -/

/-- One entry of the module-level `_rate_limits` dict:
`{"last_reset": ..., "calls": ...}`. -/
structure RateEntry where
  last_reset : Nat
  calls : Nat
deriving Repr, DecidableEq

/-- The shared `_rate_limits` map. -/
abbrev RateMap := List (String × RateEntry)

/-- Lookup in `_rate_limits`. -/
def rateFind (m : RateMap) (k : String) : Option RateEntry :=
  (List.find? (fun p => p.1 = k) m).map Prod.snd

/-- `_rate_limits[key] = entry` (overwrite-or-insert). -/
def rateInsert (m : RateMap) (k : String) (e : RateEntry) : RateMap :=
  match m with
  | [] => [(k, e)]
  | (k₁, e₁) :: rest =>
      if k₁ = k then (k, e) :: rest else (k₁, e₁) :: rateInsert rest k e

/-- The locked admission section of the `rate_limited_api` wrapper
(`utils/cache.py:78-101`): initialise the key's window if absent, reset
it when strictly more than 60 seconds elapsed since `last_reset`, then
either reject with `RateLimitExceeded` carrying the wait time
`60 - (now - last_reset)` — without incrementing — or increment the call
counter and admit. -/
def rateLimitStep (calls_per_minute : Nat) (api_key : String) (now : Nat)
    (m : RateMap) : Except PyErr Unit × RateMap :=
  let m₁ :=
    match rateFind m api_key with
    | Option.none => rateInsert m api_key ⟨now, 0⟩
    | some _ => m
  let e := (rateFind m₁ api_key).getD ⟨now, 0⟩
  let e₁ := if now - e.last_reset > 60 then (⟨now, 0⟩ : RateEntry) else e
  let m₂ := rateInsert m₁ api_key e₁
  if e₁.calls ≥ calls_per_minute then
    let wait := 60 - (now - e₁.last_reset)
    (.error ⟨"RateLimitExceeded",
             "Rate limit exceeded for " ++ api_key ++ ", retry after "
               ++ toString wait ++ " seconds"⟩, m₂)
  else
    (.ok (), rateInsert m₂ api_key ⟨e₁.last_reset, e₁.calls + 1⟩)

/-- Result of the retry loop: the delivered outcome, how many times
`func` was invoked, and the backoff durations slept, in order. -/
structure RetryResult where
  outcome : Except PyErr PyVal
  invocations : Nat
  sleeps : List Nat
deriving Repr

/-- The retry loop of `rate_limited_api` (`utils/cache.py:104-127`),
unrolled on the remaining number of loop iterations (`fuel`), starting at
attempt number `attempt` with `last_error` carried along.  `f n` is the
outcome of the `n`-th invocation of `func`; `jitter n` models
`random.uniform(0, 3)` before the `n`-th backoff sleep of
`retry_after * 2 ** retry_count + jitter`. -/
def retryFrom (retry_after : Nat) (f : Nat → Except PyErr PyVal)
    (jitter : Nat → Nat) :
    Nat → Nat → Option PyErr → RetryResult
  | _, 0, lastErr =>
      ⟨.error (lastErr.getD ⟨"Exception", "Max retries exceeded"⟩), 0, []⟩
  | attempt, fuel + 1, _ =>
      match f attempt with
      | .ok v => ⟨.ok v, 1, []⟩
      | .error e =>
          let backoff := retry_after * 2 ^ attempt + jitter attempt
          let rest := retryFrom retry_after f jitter (attempt + 1) fuel (some e)
          ⟨rest.outcome, rest.invocations + 1, backoff :: rest.sleeps⟩

/-- The `while retry_count <= max_retries` loop runs at most
`max_retries + 1` iterations, then re-raises the last error. -/
def retryLoop (retry_after max_retries : Nat) (f : Nat → Except PyErr PyVal)
    (jitter : Nat → Nat) : RetryResult :=
  retryFrom retry_after f jitter 0 (max_retries + 1) Option.none

/-- One call through the wrapper produced by `rate_limited_api`
(`utils/cache.py:69-127`): the locked admission check runs once, before
the retry loop; a quota rejection propagates immediately (the `raise` at
line 96 is outside the loop), with `func` never invoked and no sleep.
Only exceptions raised by `func` itself are retried. -/
def rateLimitedCall (calls_per_minute retry_after max_retries : Nat)
    (api_key : String) (now : Nat) (m : RateMap)
    (f : Nat → Except PyErr PyVal) (jitter : Nat → Nat) :
    RetryResult × RateMap :=
  match rateLimitStep calls_per_minute api_key now m with
  | (.error e, m₁) => (⟨.error e, 0, []⟩, m₁)
  | (.ok _, m₁) => (retryLoop retry_after max_retries f jitter, m₁)

/-! ## Fallback orchestrator (`services/financials.py:26-156`)

`fetch_financials(symbol, freq)` runs a waterfall: database query →
ETL trigger with timeout → database re-query → Yahoo Finance →
(for `freq == "quarterly"`: a recursive call with `freq = "annual"`) →
hardcoded table → legacy direct API call.  Database records and the
`data` lists of the collaborator results are abstracted to `List Nat`
(only emptiness and identity matter to the claims); the collaborators
are supplied as an environment.  The "ETL in progress" flag lives in
`threading.local()` storage (`services/financials.py:20,57-92`), so it
is a per-thread value passed as the `flag` argument; it is reset in the
`finally` block, hence the recursive annual activation sees the same
value the outer activation saw on entry. -/

/-- Outcome of `future.result(timeout=ETL_TIMEOUT)` for the submitted
ETL job: normal completion, `concurrent.futures.TimeoutError`, or an
exception raised by the job. -/
inductive EtlOutcome where
  | ok
  | timeout
  | fail
deriving Repr, DecidableEq

/-- Observable tier events of one `fetch_financials` activation, in
execution order. -/
inductive FinEv where
  | dbQuery (report_type : String)
  | etlSubmit (report_type : String)
  | dbRequery (report_type : String)
  | yahooFetch
  | hardcodedLookup (report_type : String)
  | legacyCall (freq : String)
deriving Repr, DecidableEq

/-- The dict a tier returns, reduced to its `data` list and its
`source` field (absent for legacy results, which are returned as the
external API delivered them). -/
structure FinRes where
  data : List Nat
  source : Option String
deriving Repr, DecidableEq

/-- What `fetch_yahoo_financials(symbol)` yields: the `data` lists of
its `quarterly_financials` and `annual_financials` sections (`[]` when
the section is missing, falsy or has an empty `data`). -/
structure YahooData where
  q : List Nat
  a : List Nat
deriving Repr, DecidableEq

/-- Behaviour of the collaborators of one `fetch_financials` call for a
fixed symbol.  `db1 rt` / `db2 rt` are the results of
`_query_database_for_financials` before and after the ETL attempt for
`report_type = rt`; a `.error` models the query raising.  `yahoo` models
`fetch_yahoo_financials` (which can raise, e.g. a cached error re-raised
by its own adaptive cache).  `hardcoded rt` is the dict returned by
`get_hardcoded_financials` (always a dict in the source).  `legacy fr`
is the dict returned by `_legacy_fetch_financials(symbol, fr)`, which the
orchestrator returns as-is. -/
structure FinEnv where
  db1 : String → Except PyErr (List Nat)
  db2 : String → Except PyErr (List Nat)
  etl : String → EtlOutcome
  yahoo : Except PyErr YahooData
  hardcoded : String → FinRes
  legacy : String → FinRes

/-- Outcome of the ETL tier (`services/financials.py:57-94`): either a
result to return (records found on the re-query) or fall-through,
together with the events executed.  When `flag` is set the whole tier is
skipped (`else` branch at line 93); a timeout or job failure is caught
and logged; an exception from the re-query is caught by the
`except Exception` at line 88. -/
def etlTier (env : FinEnv) (rt : String) (flag : Bool) :
    Option FinRes × List FinEv :=
  if flag then (Option.none, [])
  else
    match env.etl rt with
    | .ok =>
        match env.db2 rt with
        | .error _ => (Option.none, [.etlSubmit rt, .dbRequery rt])
        | .ok recs =>
            if recs.isEmpty then (Option.none, [.etlSubmit rt, .dbRequery rt])
            else (some ⟨recs, some "finnhub"⟩, [.etlSubmit rt, .dbRequery rt])
    | .timeout => (Option.none, [.etlSubmit rt])
    | .fail => (Option.none, [.etlSubmit rt])

/-- Tiers 4-6 (`services/financials.py:96-148`): Yahoo Finance, then for
quarterly frequency the recursive annual call (whose already-computed
result and trace are passed in as `recurse`), otherwise the hardcoded
table and finally the legacy API.  An exception from
`fetch_yahoo_financials` escapes to the outer `except Exception` at line
149, which falls back to the legacy call. -/
def lateTiers (env : FinEnv) (freq rt : String)
    (recurse : FinRes × List FinEv) : FinRes × List FinEv :=
  match env.yahoo with
  | .error _ => (env.legacy freq, [.yahooFetch, .legacyCall freq])
  | .ok yd =>
      let ys := if rt = "quarterly" then yd.q else yd.a
      if ¬ ys.isEmpty then (⟨ys, some "yahoo_finance"⟩, [.yahooFetch])
      else if freq = "quarterly" then
        (recurse.1, .yahooFetch :: recurse.2)
      else
        let hc := env.hardcoded rt
        if ¬ hc.data.isEmpty then (hc, [.yahooFetch, .hardcodedLookup rt])
        else
          (env.legacy freq,
           [.yahooFetch, .hardcodedLookup rt, .legacyCall freq])

/-- One activation of the body of `fetch_financials`
(`services/financials.py:26-156`) with frequency `freq`, thread-local
ETL flag `flag`, and the recursive annual activation's result supplied
as `recurse` (used only when `freq = "quarterly"`).  An exception from
the first database query is caught by the outer `except Exception` at
line 149 and answered by the legacy call. -/
def finBody (env : FinEnv) (freq : String) (flag : Bool)
    (recurse : FinRes × List FinEv) : FinRes × List FinEv :=
  let rt := if freq = "quarterly" then "quarterly" else "annual"
  match env.db1 rt with
  | .error _ => (env.legacy freq, [.dbQuery rt, .legacyCall freq])
  | .ok recs =>
      if ¬ recs.isEmpty then (⟨recs, some "finnhub"⟩, [.dbQuery rt])
      else
        match etlTier env rt flag with
        | (some r, tr) => (r, .dbQuery rt :: tr)
        | (Option.none, tr) =>
            let late := lateTiers env freq rt recurse
            (late.1, .dbQuery rt :: tr ++ late.2)

/-- A full `fetch_financials(symbol, freq)` invocation.  The recursive
call `fetch_financials(symbol, "annual")` taken at
`services/financials.py:128` is modelled as a direct activation of the
body (i.e. an adaptive-cache miss on the annual key); the `finally`
block at line 92 has reset the flag by then, so the inner activation
sees the same flag value the outer one did on entry. -/
def fetchFinancials (env : FinEnv) (freq : String) (flag : Bool) :
    FinRes × List FinEv :=
  finBody env freq flag (finBody env "annual" flag (⟨[], Option.none⟩, []))

/-! ## Cache statistics (`utils/cache.py:231-252`) -/

/-- The statistics dict built by `get_cache_stats`, with the two entry
timestamps kept as raw times (`datetime.fromtimestamp(...).isoformat()`
is injective on them); the `size_estimate` field (`len(str(_cache))`)
is independent of the claims and is not modelled. -/
structure CacheStats where
  entries : Nat
  rate_limited_apis : Nat
  oldest_entry : Option Nat
  newest_entry : Option Nat
deriving Repr, DecidableEq

/-- The comprehension `[t for _, t, _ in _cache.values()]`
(`utils/cache.py:243-244`): unpacking a two-component `timed_cache`
entry as `_, t, _` raises `ValueError`; iteration stops at the first
offender. -/
def statsTimes : List CacheEntry → Except PyErr (List Nat)
  | [] => .ok []
  | .adaptive _ t _ :: rest => (statsTimes rest).map (fun ts => t :: ts)
  | .timed _ _ :: _ =>
      .error ⟨"ValueError", "not enough values to unpack (expected 3, got 2)"⟩

/-- `get_cache_stats` (`utils/cache.py:231-252`): when `_cache` is empty
the `if _cache:` block is skipped and the default statistics are
returned; otherwise the oldest/newest timestamps are computed by the
three-component unpacking comprehensions. -/
def get_cache_stats (c : Cache) (rl : RateMap) : Except PyErr CacheStats :=
  if c.isEmpty then .ok ⟨0, rl.length, Option.none, Option.none⟩
  else
    match statsTimes (c.map Prod.snd) with
    | .error e => .error e
    | .ok ts => .ok ⟨c.length, rl.length, ts.min?, ts.max?⟩

/-- The cache holds at least one two-component `timed_cache` entry. -/
def hasTimedEntry (c : Cache) : Bool :=
  c.any fun p => match p.2 with | .timed _ _ => true | _ => false

/-- The call raised a `ValueError`. -/
def raisesValueError {α : Type} : Except PyErr α → Bool
  | .error e => e.kind = "ValueError"
  | .ok _ => false

/-- The call returned normally. -/
def returnsOk {α : Type} : Except PyErr α → Bool
  | .ok _ => true
  | .error _ => false

/-! ## Tier-order bookkeeping for the orchestrator claims -/

/-- Canonical tier position of an event in the waterfall of §4.3:
store lookup, refresh submission, store recheck, secondary source,
static table, legacy call. -/
def tierRank : FinEv → Nat
  | .dbQuery _ => 0
  | .etlSubmit _ => 1
  | .dbRequery _ => 2
  | .yahooFetch => 3
  | .hardcodedLookup _ => 4
  | .legacyCall _ => 5

/-- The trace visits tiers in strictly increasing canonical order. -/
def tierOrdered : List FinEv → Bool
  | [] => true
  | [_] => true
  | a :: b :: rest => decide (tierRank a < tierRank b) && tierOrdered (b :: rest)

/-- Number of background-refresh (ETL) submissions in a trace. -/
def countEtlSubmits (tr : List FinEv) : Nat :=
  (tr.filter fun e => match e with | .etlSubmit _ => true | _ => false).length

/-- Two orchestrator invocations for the same symbol running
concurrently in two distinct threads.  The "ETL in progress" flag is
`threading.local()` state (`services/financials.py:20`), so each thread
reads only its own flag, which starts at the `getattr` default `False`
(`services/financials.py:57`); no shared state couples the two runs, so
each equals a sequential run with `flag = false`.  `env₁`/`env₂` are
the collaborator behaviours each thread observes. -/
def concurrentEtlSubmits (env₁ env₂ : FinEnv) (freq : String) : Nat :=
  countEtlSubmits (fetchFinancials env₁ freq false).2
    + countEtlSubmits (fetchFinancials env₂ freq false).2

/-- Environment in which every tier yields nothing: the database is
empty before and after the ETL run, the ETL job completes, Yahoo returns
empty sections, the hardcoded table has no entry for the symbol
(`hardcoded_financials.py:140`), and the legacy API returns an empty
payload without a `source` field. -/
def emptyFinEnv : FinEnv where
  db1 := fun _ => .ok []
  db2 := fun _ => .ok []
  etl := fun _ => .ok
  yahoo := .ok ⟨[], []⟩
  hardcoded := fun _ => ⟨[], some "No Data Available"⟩
  legacy := fun _ => ⟨[], Option.none⟩

/-! ## Helper lemmas -/

theorem adaptiveMiss_invoked (b m e : Nat) (k : String)
    (fo : Except PyErr PyVal) (now : Nat) (c : Cache) :
    (adaptiveMiss b m e k fo now c).invoked = true := by
  cases fo with
  | ok v =>
      cases hsel : selectTTL b m e v with
      | ok ttl => simp [adaptiveMiss, hsel]
      | error err => simp [adaptiveMiss, hsel]
  | error err => simp [adaptiveMiss]

theorem cacheFind_nil (k : String) : cacheFind [] k = Option.none := rfl

theorem cacheFind_single (k : String) (e : CacheEntry) :
    cacheFind [(k, e)] k = some e := by
  simp [cacheFind]

/-! ## Claims about the adaptive TTL cache -/

/-- C1 (amended): for a pure `f` whose result is not shaped like a
cached failure, the first call invokes `f` and stores the result with
the selected TTL; a second call on the same key within that TTL returns
the stored value without invoking `f` and leaves the cache unchanged;
a call after the TTL has expired invokes `f` again. -/
theorem adaptive_cache_idempotence (base_ttl max_ttl error_ttl : Nat)
    (key : String) (v : PyVal) (ttl t₁ t₂ t₃ : Nat)
    (hv : isCachedErrorDict v = false)
    (hsel : selectTTL base_ttl max_ttl error_ttl v = .ok ttl)
    (h₂ : t₂ - t₁ < ttl) (h₃ : ¬ (t₃ - t₁ < ttl)) :
    adaptiveCall base_ttl max_ttl error_ttl key (.ok v) t₁ []
      = ⟨.ok v, [(key, .adaptive v t₁ ttl)], true⟩ ∧
    adaptiveCall base_ttl max_ttl error_ttl key (.ok v) t₂
        [(key, .adaptive v t₁ ttl)]
      = ⟨.ok v, [(key, .adaptive v t₁ ttl)], false⟩ ∧
    (adaptiveCall base_ttl max_ttl error_ttl key (.ok v) t₃
        [(key, .adaptive v t₁ ttl)]).invoked = true := by
  refine ⟨?_, ?_, ?_⟩
  · simp [adaptiveCall, cacheFind_nil, adaptiveMiss, hsel, cacheInsert]
  · simp [adaptiveCall, cacheFind_single, h₂, hv]
  · simp [adaptiveCall, cacheFind_single, h₃, adaptiveMiss_invoked]

theorem adaptive_cache_idempotence_witness :
    isCachedErrorDict (.str "v") = false ∧
    selectTTL 3600 86400 300 (.str "v") = .ok 3600 ∧
    (5 : Nat) - 0 < 3600 ∧ ¬ ((4000 : Nat) - 0 < 3600) ∧
    adaptiveCall 3600 86400 300 "k" (.ok (.str "v")) 0 []
      = ⟨.ok (.str "v"), [("k", .adaptive (.str "v") 0 3600)], true⟩ ∧
    adaptiveCall 3600 86400 300 "k" (.ok (.str "v")) 5
        [("k", .adaptive (.str "v") 0 3600)]
      = ⟨.ok (.str "v"), [("k", .adaptive (.str "v") 0 3600)], false⟩ ∧
    (adaptiveCall 3600 86400 300 "k" (.ok (.str "v")) 4000
        [("k", .adaptive (.str "v") 0 3600)]).invoked = true := by
  have h := adaptive_cache_idempotence 3600 86400 300 "k" (.str "v")
    3600 0 5 4000 (by rfl) (by rfl) (by decide) (by decide)
  exact ⟨by rfl, by rfl, by decide, by decide, h.1, h.2.1, h.2.2⟩

/-- C1 counterexample: a pure `f` returning the dict
`{"error": "boom", "error_type": "ValueError"}` breaks the claim as
stated: the first call returns the dict normally, but a second call on
the same key within the TTL does not return the stored value — it
raises `ValueError("boom")` instead. -/
theorem adaptive_cache_idempotence_cex :
    (adaptiveCall 3600 86400 300 "k"
        (.ok (.dict [("error", .str "boom"), ("error_type", .str "ValueError")]))
        0 []).outcome
      = .ok (.dict [("error", .str "boom"), ("error_type", .str "ValueError")]) ∧
    (adaptiveCall 3600 86400 300 "k"
        (.ok (.dict [("error", .str "boom"), ("error_type", .str "ValueError")]))
        1
        (adaptiveCall 3600 86400 300 "k"
          (.ok (.dict [("error", .str "boom"), ("error_type", .str "ValueError")]))
          0 []).cache).outcome
      = .error ⟨"ValueError", "boom"⟩ := by
  exact ⟨rfl, rfl⟩

/-- C2 (amended): the TTL policy as implemented.  (a) `f` raises →
the failure dict is cached with `error_ttl` and the error re-raised;
(b) `None` is cached with `error_ttl` (not `base_ttl / 2`);
(c) a dict with a truthy `error` field is cached with `error_ttl`;
(d) a dict with falsy `error` and falsy/missing `data` is cached with
`base_ttl / 2`; (e) a dict with falsy `error` and a non-empty *list*
`data` is cached with `max_ttl`; (f) a dict with falsy `error` and a
truthy non-list sized `data` (e.g. a nested dict) is cached with
`base_ttl`; (g) every
non-dict, non-`None` result — empty or not — is cached with
`base_ttl`. -/
theorem adaptive_ttl_selection (base_ttl max_ttl error_ttl : Nat)
    (key : String) (now : Nat) :
    (∀ e : PyErr,
      adaptiveCall base_ttl max_ttl error_ttl key (.error e) now []
        = ⟨.error e,
           [(key, .adaptive (errorResultDict e) now error_ttl)], true⟩) ∧
    (adaptiveCall base_ttl max_ttl error_ttl key (.ok .none) now []
        = ⟨.ok .none, [(key, .adaptive .none now error_ttl)], true⟩) ∧
    (∀ kvs, truthy (dictGetD kvs "error" .none) = true →
      adaptiveCall base_ttl max_ttl error_ttl key (.ok (.dict kvs)) now []
        = ⟨.ok (.dict kvs),
           [(key, .adaptive (.dict kvs) now error_ttl)], true⟩) ∧
    (∀ kvs, truthy (dictGetD kvs "error" .none) = false →
        truthy (dictGetD kvs "data" .none) = false →
      adaptiveCall base_ttl max_ttl error_ttl key (.ok (.dict kvs)) now []
        = ⟨.ok (.dict kvs),
           [(key, .adaptive (.dict kvs) now (base_ttl / 2))], true⟩) ∧
    (∀ kvs x xs, truthy (dictGetD kvs "error" .none) = false →
        dictGetD kvs "data" .none = .list (x :: xs) →
      adaptiveCall base_ttl max_ttl error_ttl key (.ok (.dict kvs)) now []
        = ⟨.ok (.dict kvs),
           [(key, .adaptive (.dict kvs) now max_ttl)], true⟩) ∧
    (∀ kvs p ps, truthy (dictGetD kvs "error" .none) = false →
        dictGetD kvs "data" .none = .dict (p :: ps) →
      adaptiveCall base_ttl max_ttl error_ttl key (.ok (.dict kvs)) now []
        = ⟨.ok (.dict kvs),
           [(key, .adaptive (.dict kvs) now base_ttl)], true⟩) ∧
    (∀ xs : List PyVal,
      adaptiveCall base_ttl max_ttl error_ttl key (.ok (.list xs)) now []
        = ⟨.ok (.list xs),
           [(key, .adaptive (.list xs) now base_ttl)], true⟩) ∧
    (∀ s : String,
      adaptiveCall base_ttl max_ttl error_ttl key (.ok (.str s)) now []
        = ⟨.ok (.str s), [(key, .adaptive (.str s) now base_ttl)], true⟩) := by
  refine ⟨?_, ?_, ?_, ?_, ?_, ?_, ?_, ?_⟩
  · intro e
    simp [adaptiveCall, cacheFind_nil, adaptiveMiss, cacheInsert]
  · simp [adaptiveCall, cacheFind_nil, adaptiveMiss, selectTTL, cacheInsert]
  · intro kvs herr
    simp [adaptiveCall, cacheFind_nil, adaptiveMiss, selectTTL, herr,
      cacheInsert]
  · intro kvs herr hdata
    simp [adaptiveCall, cacheFind_nil, adaptiveMiss, selectTTL, herr, hdata,
      cacheInsert]
  · intro kvs x xs herr hdata
    simp only [adaptiveCall, cacheFind_nil, adaptiveMiss, selectTTL, hdata, herr]
    simp [truthy, pyLen, cacheInsert]
  · intro kvs p ps herr hdata
    simp only [adaptiveCall, cacheFind_nil, adaptiveMiss, selectTTL, hdata, herr]
    simp [truthy, pyLen, cacheInsert]
  · intro xs
    simp [adaptiveCall, cacheFind_nil, adaptiveMiss, selectTTL, cacheInsert]
  · intro s
    simp [adaptiveCall, cacheFind_nil, adaptiveMiss, selectTTL, cacheInsert]

theorem adaptive_ttl_selection_witness :
    adaptiveCall 3600 86400 300 "k" (.error ⟨"ValueError", "x"⟩) 0 []
      = ⟨.error ⟨"ValueError", "x"⟩,
         [("k", .adaptive (errorResultDict ⟨"ValueError", "x"⟩) 0 300)],
         true⟩ ∧
    truthy (dictGetD [("data", .list [.int 1])] "error" .none) = false ∧
    adaptiveCall 3600 86400 300 "k"
        (.ok (.dict [("data", .list [.int 1])])) 0 []
      = ⟨.ok (.dict [("data", .list [.int 1])]),
         [("k", .adaptive (.dict [("data", .list [.int 1])]) 0 86400)],
         true⟩ := by
  have h := adaptive_ttl_selection 3600 86400 300 "k" 0
  exact ⟨h.1 ⟨"ValueError", "x"⟩, by rfl,
    h.2.2.2.2.1 [("data", .list [.int 1])] (.int 1) [] (by rfl) (by rfl)⟩

/-- C2 counterexample: the empty list is a falsy, zero-element
collection result, which the claim says is cached with `base_ttl / 2`;
the code caches every non-dict result — including `[]` — with
`base_ttl` (3600 here, where `base_ttl / 2 = 1800`). -/
theorem adaptive_ttl_selection_cex :
    (adaptiveCall 3600 86400 300 "k" (.ok (.list [])) 7 []).cache
      = [("k", .adaptive (.list []) 7 3600)] ∧ (3600 : Nat) ≠ 3600 / 2 := by
  exact ⟨rfl, by decide⟩

/-- C3 (amended): the same kind and message are re-raised on a hit for
a cached failure only when the original exception class is a builtin
`Exception` subclass other than `TypeError` / `AttributeError`: the
first call caches the failure and re-raises the original, and a second
call on the same key before `error_ttl` expires re-raises an error of
the same kind and message without invoking `f` (whatever `f` would do on
that second call). -/
theorem cached_error_reraise (base_ttl max_ttl error_ttl : Nat)
    (key : String) (e : PyErr) (t₁ t₂ : Nat) (fo₂ : Except PyErr PyVal)
    (hb : builtinLookup e.kind = .excClass)
    (hkt : e.kind ≠ "TypeError") (hka : e.kind ≠ "AttributeError")
    (h₂ : t₂ - t₁ < error_ttl) :
    adaptiveCall base_ttl max_ttl error_ttl key (.error e) t₁ []
      = ⟨.error e, [(key, .adaptive (errorResultDict e) t₁ error_ttl)],
         true⟩ ∧
    adaptiveCall base_ttl max_ttl error_ttl key fo₂ t₂
        [(key, .adaptive (errorResultDict e) t₁ error_ttl)]
      = ⟨.error e, [(key, .adaptive (errorResultDict e) t₁ error_ttl)],
         false⟩ := by
  obtain ⟨k, m⟩ := e
  refine ⟨?_, ?_⟩
  · simp [adaptiveCall, cacheFind_nil, adaptiveMiss, cacheInsert]
  · simp only [ne_eq] at hkt hka
    simp [adaptiveCall, cacheFind_single, h₂, isCachedErrorDict,
      errorResultDict, dictFind, cachedErrorHit, dictGetD, pyStr, hb,
      hkt, hka]

theorem cached_error_reraise_witness :
    builtinLookup "ValueError" = .excClass ∧
    adaptiveCall 3600 86400 300 "k" (.error ⟨"ValueError", "boom"⟩) 0 []
      = ⟨.error ⟨"ValueError", "boom"⟩,
         [("k", .adaptive (errorResultDict ⟨"ValueError", "boom"⟩) 0 300)],
         true⟩ ∧
    adaptiveCall 3600 86400 300 "k" (.ok .none) 1
        [("k", .adaptive (errorResultDict ⟨"ValueError", "boom"⟩) 0 300)]
      = ⟨.error ⟨"ValueError", "boom"⟩,
         [("k", .adaptive (errorResultDict ⟨"ValueError", "boom"⟩) 0 300)],
         false⟩ := by
  have h := cached_error_reraise 3600 86400 300 "k" ⟨"ValueError", "boom"⟩
    0 1 (.ok .none) (by decide) (by decide) (by decide) (by decide)
  exact ⟨by decide, h.1, h.2⟩

/-- C3 counterexample: `RateLimitExceeded` (defined in
`utils/cache.py`, not a builtin) is an exception type the wrapped
functions do raise; a hit on its cached failure raises a generic
`Exception` with the message prefixed by the type name — neither the
kind nor the message matches the original. -/
theorem cached_error_reraise_cex :
    (adaptiveCall 3600 86400 300 "k"
        (.error ⟨"RateLimitExceeded", "boom"⟩) 0 []).outcome
      = .error ⟨"RateLimitExceeded", "boom"⟩ ∧
    (adaptiveCall 3600 86400 300 "k" (.ok .none) 1
        (adaptiveCall 3600 86400 300 "k"
          (.error ⟨"RateLimitExceeded", "boom"⟩) 0 []).cache).outcome
      = .error ⟨"Exception", "RateLimitExceeded: boom"⟩ ∧
    ("Exception" : String) ≠ "RateLimitExceeded" ∧
    ("RateLimitExceeded: boom" : String) ≠ "boom" := by
  exact ⟨rfl, rfl, by decide, by decide⟩

/-- C9: a successful result shaped like a cached failure — here the
dict `{"error": "nope", "error_type": "KeyError"}` — is returned
normally by the first call, while the second call on the same key before
expiry raises `KeyError("nope")` instead of returning the cached value,
without invoking `f`: the cache is not transparent for such results. -/
theorem error_shaped_result_divergence :
    (adaptiveCall 3600 86400 300 "k"
        (.ok (.dict [("error", .str "nope"), ("error_type", .str "KeyError")]))
        0 []).outcome
      = .ok (.dict [("error", .str "nope"), ("error_type", .str "KeyError")]) ∧
    (adaptiveCall 3600 86400 300 "k"
        (.ok (.dict [("error", .str "nope"), ("error_type", .str "KeyError")]))
        1
        (adaptiveCall 3600 86400 300 "k"
          (.ok (.dict [("error", .str "nope"), ("error_type", .str "KeyError")]))
          0 []).cache).outcome
      = .error ⟨"KeyError", "nope"⟩ ∧
    (adaptiveCall 3600 86400 300 "k"
        (.ok (.dict [("error", .str "nope"), ("error_type", .str "KeyError")]))
        1
        (adaptiveCall 3600 86400 300 "k"
          (.ok (.dict [("error", .str "nope"), ("error_type", .str "KeyError")]))
          0 []).cache).invoked = false := by
  exact ⟨rfl, rfl, rfl⟩

/-! ## Claims about the rate limiter and the backoff retrier -/

theorem rateFind_nil (k : String) : rateFind [] k = Option.none := rfl

theorem rateFind_single (k : String) (e : RateEntry) :
    rateFind [(k, e)] k = some e := by
  simp [rateFind]

/-- C4 (amended): the admission step of the rate limiter.  A fresh key
starts a window at `now` and counts the call; while at most 60 seconds
have elapsed since `last_reset` the old window is in force — an
under-quota call increments the counter and a call with the counter at
the quota is rejected with `RateLimitExceeded` carrying the wait time
`60 - (now - last_reset)` and no increment; the window resets (to `now`,
counter restarting at this call) only when *strictly more* than 60
seconds have elapsed, so the boundary instant `last_reset + 60` still
belongs to the old window. -/
theorem rate_limit_window (cpm : Nat) (k : String) (now s c : Nat)
    (hcpm : 0 < cpm) :
    rateLimitStep cpm k now [] = (.ok (), [(k, ⟨now, 1⟩)]) ∧
    (now - s ≤ 60 → c < cpm →
      rateLimitStep cpm k now [(k, ⟨s, c⟩)] = (.ok (), [(k, ⟨s, c + 1⟩)])) ∧
    (now - s ≤ 60 → cpm ≤ c →
      rateLimitStep cpm k now [(k, ⟨s, c⟩)]
        = (.error ⟨"RateLimitExceeded",
            "Rate limit exceeded for " ++ k ++ ", retry after "
              ++ toString (60 - (now - s)) ++ " seconds"⟩,
           [(k, ⟨s, c⟩)])) ∧
    (60 < now - s →
      rateLimitStep cpm k now [(k, ⟨s, c⟩)] = (.ok (), [(k, ⟨now, 1⟩)])) := by
  refine ⟨?_, ?_, ?_, ?_⟩
  · have h1 : ¬ (now - now > 60) := by omega
    have h2 : ¬ (0 ≥ cpm) := by omega
    simp [rateLimitStep, rateFind_nil, rateFind_single, rateInsert, h1, h2]
  · intro hw hq
    have h1 : ¬ (now - s > 60) := by omega
    have h2 : ¬ (c ≥ cpm) := by omega
    simp [rateLimitStep, rateFind_single, rateInsert, h1, h2]
  · intro hw hq
    have h1 : ¬ (now - s > 60) := by omega
    simp [rateLimitStep, rateFind_single, rateInsert, h1, hq]
  · intro hw
    have h2 : ¬ (0 ≥ cpm) := by omega
    simp [rateLimitStep, rateFind_single, rateInsert, hw, h2]

theorem rate_limit_window_witness :
    rateLimitStep 2 "k" 0 [] = (.ok (), [("k", ⟨0, 1⟩)]) ∧
    rateLimitStep 2 "k" 30 [("k", ⟨0, 1⟩)] = (.ok (), [("k", ⟨0, 2⟩)]) ∧
    rateLimitStep 2 "k" 40 [("k", ⟨0, 2⟩)]
      = (.error ⟨"RateLimitExceeded",
          "Rate limit exceeded for k, retry after 20 seconds"⟩,
         [("k", ⟨0, 2⟩)]) ∧
    rateLimitStep 2 "k" 61 [("k", ⟨0, 2⟩)] = (.ok (), [("k", ⟨61, 1⟩)]) := by
  refine ⟨(rate_limit_window 2 "k" 0 0 0 (by decide)).1,
    (rate_limit_window 2 "k" 30 0 1 (by decide)).2.1 (by decide) (by decide),
    ?_,
    (rate_limit_window 2 "k" 61 0 2 (by decide)).2.2.2 (by decide)⟩
  have h := (rate_limit_window 2 "k" 40 0 2 (by decide)).2.2.1
    (by decide) (by decide)
  simpa using h

/-- C4 counterexample: at `now = window_start + 60` the fixed
60-second window `[window_start, window_start + 60)` of the claim has
elapsed, so the claim requires the window to reset (`window_start = 60`,
count restarting) and the call to be admitted; the code's reset
condition `now - last_reset > 60` is false at exactly 60 elapsed
seconds, so the call is instead rejected against the old window with a
reported wait time of 0 and the entry left at `(0, 1)`. -/
theorem rate_limit_window_cex :
    rateLimitStep 1 "k" 60 [("k", ⟨0, 1⟩)]
      = (.error ⟨"RateLimitExceeded",
          "Rate limit exceeded for k, retry after 0 seconds"⟩,
         [("k", ⟨0, 1⟩)]) ∧
    ¬ ((60 : Nat) - 0 < 60) ∧
    [("k", (⟨0, 1⟩ : RateEntry))] ≠ [("k", (⟨60, 1⟩ : RateEntry))] := by
  exact ⟨rfl, by decide, by decide⟩

/-- Backoff durations slept by the retry loop starting at attempt
`start` with `fuel` iterations left: `retry_after * 2 ** attempt`
plus the jitter drawn before that sleep. -/
def geomSleeps (retry_after : Nat) (jitter : Nat → Nat) :
    Nat → Nat → List Nat
  | _, 0 => []
  | start, fuel + 1 =>
      (retry_after * 2 ^ start + jitter start)
        :: geomSleeps retry_after jitter (start + 1) fuel

theorem geomSleeps_eq (ra : Nat) (j : Nat → Nat) :
    ∀ fuel start, geomSleeps ra j start fuel
      = (List.range fuel).map (fun i => ra * 2 ^ (start + i) + j (start + i)) := by
  intro fuel
  induction fuel with
  | zero => intro start; simp [geomSleeps]
  | succ n ih =>
      intro start
      rw [geomSleeps, ih (start + 1), List.range_succ_eq_map, List.map_cons,
        List.map_map]
      simp only [Nat.add_zero]
      congr 1
      apply List.map_congr_left
      intro i _
      simp only [Function.comp_apply]
      have h : start + 1 + i = start + (i + 1) := by omega
      simp [h]

theorem retryFrom_allFail (ra : Nat) (f : Nat → Except PyErr PyVal)
    (j : Nat → Nat) (es : Nat → PyErr) (hf : ∀ n, f n = .error (es n)) :
    ∀ fuel start l₀,
      retryFrom ra f j start (fuel + 1) l₀
        = ⟨.error (es (start + fuel)), fuel + 1, geomSleeps ra j start (fuel + 1)⟩ := by
  intro fuel
  induction fuel with
  | zero =>
      intro start l₀
      simp [retryFrom, hf start, geomSleeps]
  | succ n ih =>
      intro start l₀
      rw [retryFrom, hf start]
      simp only [ih (start + 1), geomSleeps]
      have h : start + 1 + n = start + (n + 1) := by omega
      rw [h]

/-- C5 (amended): the quota check runs once, before the retry loop, and
a quota rejection propagates immediately — the wrapped `f` is never
invoked and nothing is slept.  Only exceptions raised by `f` itself are
retried: when admitted and `f` fails on every attempt, `f` is invoked
`max_retries + 1` times, the loop sleeps
`retry_after * 2 ** attempt + jitter` after every failed attempt
(including the last), and the error of the final attempt is re-raised;
when admitted and the first attempt succeeds, its value is returned
after one invocation with no sleep. -/
theorem rate_limit_backoff (cpm ra mr : Nat) (k : String) (now : Nat)
    (m : RateMap) (f : Nat → Except PyErr PyVal) (j : Nat → Nat)
    (es : Nat → PyErr) :
    (∀ e m₁, rateLimitStep cpm k now m = (.error e, m₁) →
      rateLimitedCall cpm ra mr k now m f j = (⟨.error e, 0, []⟩, m₁)) ∧
    (∀ m₁, rateLimitStep cpm k now m = (.ok (), m₁) →
      (∀ n, f n = .error (es n)) →
      rateLimitedCall cpm ra mr k now m f j
        = (⟨.error (es mr), mr + 1,
            (List.range (mr + 1)).map (fun i => ra * 2 ^ i + j i)⟩, m₁)) ∧
    (∀ m₁ v, rateLimitStep cpm k now m = (.ok (), m₁) → f 0 = .ok v →
      rateLimitedCall cpm ra mr k now m f j = (⟨.ok v, 1, []⟩, m₁)) := by
  refine ⟨?_, ?_, ?_⟩
  · intro e m₁ hstep
    simp [rateLimitedCall, hstep]
  · intro m₁ hstep hf
    have h := retryFrom_allFail ra f j es hf mr 0 Option.none
    simp only [Nat.zero_add] at h
    simp [rateLimitedCall, hstep, retryLoop, h, geomSleeps_eq]
  · intro m₁ v hstep hv
    simp [rateLimitedCall, hstep, retryLoop, retryFrom, hv]

theorem rate_limit_backoff_witness :
    rateLimitedCall 1 60 3 "k" 10 [("k", ⟨0, 1⟩)]
        (fun _ => .ok .none) (fun _ => 0)
      = (⟨.error ⟨"RateLimitExceeded",
           "Rate limit exceeded for k, retry after 50 seconds"⟩, 0, []⟩,
         [("k", ⟨0, 1⟩)]) ∧
    rateLimitedCall 1 30 2 "k" 5 []
        (fun _ => .error ⟨"ValueError", "x"⟩) (fun _ => 1)
      = (⟨.error ⟨"ValueError", "x"⟩, 3, [31, 61, 121]⟩,
         [("k", ⟨5, 1⟩)]) ∧
    rateLimitedCall 1 30 2 "k" 5 [] (fun _ => .ok (.int 9)) (fun _ => 1)
      = (⟨.ok (.int 9), 1, []⟩, [("k", ⟨5, 1⟩)]) := by
  refine ⟨?_, ?_, ?_⟩
  · exact (rate_limit_backoff 1 60 3 "k" 10 [("k", ⟨0, 1⟩)]
      (fun _ => .ok .none) (fun _ => 0) (fun _ => ⟨"", ""⟩)).1
      ⟨"RateLimitExceeded",
       "Rate limit exceeded for k, retry after 50 seconds"⟩
      [("k", ⟨0, 1⟩)] (by rfl)
  · have h := (rate_limit_backoff 1 30 2 "k" 5 []
      (fun _ => .error ⟨"ValueError", "x"⟩) (fun _ => 1)
      (fun _ => ⟨"ValueError", "x"⟩)).2.1 [("k", ⟨5, 1⟩)] (by rfl)
      (fun n => rfl)
    simpa using h
  · exact (rate_limit_backoff 1 30 2 "k" 5 [] (fun _ => .ok (.int 9))
      (fun _ => 1) (fun _ => ⟨"", ""⟩)).2.2 [("k", ⟨5, 1⟩)] (.int 9)
      (by rfl) (by rfl)

/-- C5 counterexample: with the quota already reached, a call to the
rate-limited wrapper is not retried with backoff — the
`RateLimitExceeded` from the admission check is raised immediately
(the `raise` at `utils/cache.py:96` sits before the retry loop): the
wrapped function is invoked 0 times and no backoff sleep happens, even
though `max_retries = 3`. -/
theorem rate_limit_backoff_cex :
    rateLimitedCall 1 60 3 "k" 10 [("k", ⟨0, 1⟩)]
        (fun _ => .ok (.int 1)) (fun _ => 0)
      = (⟨.error ⟨"RateLimitExceeded",
           "Rate limit exceeded for k, retry after 50 seconds"⟩, 0, []⟩,
         [("k", ⟨0, 1⟩)]) ∧
    (0 : Nat) ≠ 3 ∧ ([] : List Nat) ≠ [60, 120, 240] := by
  exact ⟨rfl, by decide, by decide⟩

/-! ## Claim about `get_cache_stats` on mixed cache entries -/

theorem statsTimes_of_timed (l : List CacheEntry)
    (h : (l.any fun e => match e with | .timed _ _ => true | _ => false)
          = true) :
    statsTimes l
      = .error ⟨"ValueError",
                "not enough values to unpack (expected 3, got 2)"⟩ := by
  induction l with
  | nil => simp at h
  | cons hd t ih =>
      cases hd with
      | timed r ts => rfl
      | adaptive r ts ttl =>
          simp only [List.any_cons, Bool.or_eq_true] at h
          rcases h with h | h
          · simp at h
          · simp [statsTimes, ih h, Except.map]

theorem statsTimes_of_no_timed (l : List CacheEntry)
    (h : (l.any fun e => match e with | .timed _ _ => true | _ => false)
          = false) :
    ∃ ts, statsTimes l = .ok ts := by
  induction l with
  | nil => exact ⟨[], rfl⟩
  | cons hd t ih =>
      cases hd with
      | timed r ts => simp at h
      | adaptive r ts ttl =>
          simp only [List.any_cons, Bool.or_eq_false_iff] at h
          obtain ⟨ts', hts⟩ := ih h.2
          exact ⟨ts :: ts', by simp [statsTimes, hts, Except.map]⟩

theorem hasTimedEntry_map (c : Cache) :
    ((c.map Prod.snd).any fun e =>
        match e with | .timed _ _ => true | _ => false)
      = hasTimedEntry c := by
  induction c with
  | nil => rfl
  | cons hd t ih =>
      simp only [List.map_cons, List.any_cons, ih]
      rfl

/-- C10: `get_cache_stats` raises `ValueError` exactly when the shared
cache map holds at least one two-component `timed_cache` entry (the
comprehension at `utils/cache.py:243` unpacks every entry as a
three-component tuple), and returns the statistics dict exactly when the
cache is empty or every entry is a three-component adaptive-TTL
entry. -/
theorem cache_stats_mixed_entries (c : Cache) (rl : RateMap) :
    raisesValueError (get_cache_stats c rl) = hasTimedEntry c ∧
    returnsOk (get_cache_stats c rl) = !hasTimedEntry c := by
  cases c with
  | nil =>
      exact ⟨rfl, rfl⟩
  | cons hd t =>
      by_cases htm : hasTimedEntry (hd :: t)
      · have h := statsTimes_of_timed ((hd :: t).map Prod.snd)
          (by rw [hasTimedEntry_map]; exact htm)
        rw [List.map_cons] at h
        simp [get_cache_stats, h, raisesValueError, returnsOk, htm]
      · have hb : hasTimedEntry (hd :: t) = false := by
          simpa using htm
        obtain ⟨ts, hts⟩ := statsTimes_of_no_timed ((hd :: t).map Prod.snd)
          (by rw [hasTimedEntry_map]; exact hb)
        rw [List.map_cons] at hts
        simp [get_cache_stats, hts, raisesValueError, returnsOk, hb]

/-! ## Claims about the fallback orchestrator -/

theorem etlTier_trace (env : FinEnv) (rt : String) (flag : Bool) :
    (etlTier env rt flag).2 = [] ∨
    (etlTier env rt flag).2 = [.etlSubmit rt] ∨
    (etlTier env rt flag).2 = [.etlSubmit rt, .dbRequery rt] := by
  unfold etlTier
  by_cases hf : flag
  · simp [hf]
  · simp only [hf, if_false, Bool.false_eq_true]
    cases env.etl rt with
    | ok =>
        cases env.db2 rt with
        | error e => simp
        | ok recs =>
            by_cases hre : recs.isEmpty <;> simp [hre]
    | timeout => simp
    | fail => simp

theorem lateTiers_trace (env : FinEnv) (rt freq : String)
    (r : FinRes × List FinEv) (h : freq ≠ "quarterly") :
    (lateTiers env freq rt r).2 = [.yahooFetch] ∨
    (lateTiers env freq rt r).2 = [.yahooFetch, .legacyCall freq] ∨
    (lateTiers env freq rt r).2 = [.yahooFetch, .hardcodedLookup rt] ∨
    (lateTiers env freq rt r).2
      = [.yahooFetch, .hardcodedLookup rt, .legacyCall freq] := by
  unfold lateTiers
  cases env.yahoo with
  | error e => simp
  | ok yd =>
      by_cases hys : (if rt = "quarterly" then yd.q else yd.a).isEmpty
      · by_cases hhc : (env.hardcoded rt).data.isEmpty
        · simp [hys, h, hhc]
        · simp [hys, h, hhc]
      · simp [hys]

theorem finBody_primary (env : FinEnv) (freq : String) (flag : Bool)
    (r : FinRes × List FinEv) (recs : List Nat)
    (hdb : env.db1 (if freq = "quarterly" then "quarterly" else "annual")
            = .ok recs)
    (hne : recs ≠ []) :
    finBody env freq flag r
      = (⟨recs, some "finnhub"⟩,
         [.dbQuery (if freq = "quarterly" then "quarterly" else "annual")]) := by
  have h2 : recs.isEmpty = false := by
    cases recs with
    | nil => exact absurd rfl hne
    | cons a t => rfl
  unfold finBody
  simp only [hdb, h2, not_false_iff, if_true, Bool.false_eq_true]

theorem finBody_refreshed (env : FinEnv) (r : FinRes × List FinEv)
    (recs : List Nat)
    (hdb : env.db1 "annual" = .ok [])
    (hetl : env.etl "annual" = .ok)
    (hdb2 : env.db2 "annual" = .ok recs)
    (hne : recs ≠ []) :
    finBody env "annual" false r
      = (⟨recs, some "finnhub"⟩,
         [.dbQuery "annual", .etlSubmit "annual", .dbRequery "annual"]) := by
  have h : ("annual" : String) ≠ "quarterly" := by decide
  have h2 : recs.isEmpty = false := by
    cases recs with
    | nil => exact absurd rfl hne
    | cons a t => rfl
  unfold finBody etlTier
  simp only [if_neg h, hdb, hetl, hdb2, h2, List.isEmpty_nil, not_true,
    if_false, Bool.false_eq_true, if_true]

theorem finBody_yahoo_annual (env : FinEnv) (flag : Bool)
    (r : FinRes × List FinEv) (yd : YahooData) (etr : List FinEv)
    (hdb : env.db1 "annual" = .ok [])
    (hetl : etlTier env "annual" flag = (Option.none, etr))
    (hy : env.yahoo = .ok yd) (hya : yd.a ≠ []) :
    finBody env "annual" flag r
      = (⟨yd.a, some "yahoo_finance"⟩,
         .dbQuery "annual" :: etr ++ [.yahooFetch]) := by
  have h : ("annual" : String) ≠ "quarterly" := by decide
  have h2 : yd.a.isEmpty = false := by
    cases hc : yd.a with
    | nil => exact absurd hc hya
    | cons a t => rfl
  unfold finBody lateTiers
  simp only [if_neg h, hdb, hetl, hy, h2, List.isEmpty_nil, not_true,
    if_false, Bool.false_eq_true, not_false_iff, if_true]

theorem finBody_hardcoded_annual (env : FinEnv) (flag : Bool)
    (r : FinRes × List FinEv) (yd : YahooData) (etr : List FinEv)
    (hdb : env.db1 "annual" = .ok [])
    (hetl : etlTier env "annual" flag = (Option.none, etr))
    (hy : env.yahoo = .ok yd) (hya : yd.a = [])
    (hhc : (env.hardcoded "annual").data ≠ []) :
    finBody env "annual" flag r
      = (env.hardcoded "annual",
         .dbQuery "annual" :: etr
           ++ [.yahooFetch, .hardcodedLookup "annual"]) := by
  have h : ("annual" : String) ≠ "quarterly" := by decide
  have h2 : (env.hardcoded "annual").data.isEmpty = false := by
    cases hc : (env.hardcoded "annual").data with
    | nil => exact absurd hc hhc
    | cons a t => rfl
  unfold finBody lateTiers
  simp only [if_neg h, hdb, hetl, hy, hya, h2, List.isEmpty_nil, not_true,
    if_false, Bool.false_eq_true, not_false_iff, if_true]

theorem finBody_legacy_annual (env : FinEnv) (flag : Bool)
    (r : FinRes × List FinEv) (yd : YahooData) (etr : List FinEv)
    (hdb : env.db1 "annual" = .ok [])
    (hetl : etlTier env "annual" flag = (Option.none, etr))
    (hy : env.yahoo = .ok yd) (hya : yd.a = [])
    (hhc : (env.hardcoded "annual").data = []) :
    finBody env "annual" flag r
      = (env.legacy "annual",
         .dbQuery "annual" :: etr
           ++ [.yahooFetch, .hardcodedLookup "annual",
               .legacyCall "annual"]) := by
  have h : ("annual" : String) ≠ "quarterly" := by decide
  unfold finBody lateTiers
  simp only [if_neg h, hdb, hetl, hy, hya, hhc, List.isEmpty_nil, not_true,
    if_false, Bool.false_eq_true, if_true]

/-- Environment whose primary store already has annual records. -/
def primaryFinEnv : FinEnv :=
  { emptyFinEnv with db1 := fun _ => .ok [1] }

/-- Environment whose store is empty until the ETL run populates it. -/
def refreshedFinEnv : FinEnv :=
  { emptyFinEnv with db2 := fun _ => .ok [2] }

/-- Environment in which only Yahoo Finance has (annual) data. -/
def yahooFinEnv : FinEnv :=
  { emptyFinEnv with yahoo := .ok ⟨[], [3]⟩ }

/-- Environment in which only the hardcoded table has data. -/
def hardcodedFinEnv : FinEnv :=
  { emptyFinEnv with
      hardcoded := fun _ => ⟨[4], some "Aurora Cannabis Investor Relations"⟩ }

/-! ### Extended orchestrator model for the tier-order claim

`fetchFinancials` above models a cold-cache run: the recursive
`fetch_financials(symbol, "annual")` at `services/financials.py:128` is
treated as a cache miss, and the legacy collaborator as total.  The
tier-order claim needs the full behaviour: the recursive call goes
through the `adaptive_ttl_cache` wrapper — a valid cached annual entry
is returned without running any annual tier, and a valid cached annual
*failure* re-raises into the `except` at line 149, which answers with
`_legacy_fetch_financials(symbol, "quarterly")` — and
`_legacy_fetch_financials` is `rate_limited_api`-wrapped, so its
admission check can raise `RateLimitExceeded`; a raise from the line-148
legacy call is caught at line 149 and the legacy tier runs a second
time.  The extended model below captures these paths.  Legacy calls are
indexed by occasion (the rate limiter is stateful across calls); the
occasion counter is threaded through the invocation. -/

/-- State of the adaptive cache at the annual key when the recursive
call at `services/financials.py:128` goes through the wrapper: a miss
runs the annual body (the wrapper passes the body's result or exception
through, per `adaptiveCall`); a valid non-error entry is returned
without running the body; a valid cached failure re-raises. -/
inductive AnnualCache where
  | miss
  | hitValue (v : FinRes)
  | hitError (e : PyErr)
deriving Repr

/-- Collaborators of one `fetch_financials` call, extended: `legacy n
fr` is the outcome of the `n`-th legacy call of this invocation
(`_legacy_fetch_financials` may raise, e.g. `RateLimitExceeded` from
the admission check of its `rate_limited_api` wrapper), and
`annualCache` is the adaptive-cache state met by the recursive annual
call. -/
structure FinEnvE where
  db1 : String → Except PyErr (List Nat)
  db2 : String → Except PyErr (List Nat)
  etl : String → EtlOutcome
  yahoo : Except PyErr YahooData
  hardcoded : String → FinRes
  legacy : Nat → String → Except PyErr FinRes
  annualCache : AnnualCache

/-- The ETL tier (`services/financials.py:57-94`) over the extended
environment; identical logic to `etlTier`. -/
def etlTierE (env : FinEnvE) (rt : String) (flag : Bool) :
    Option FinRes × List FinEv :=
  if flag then (Option.none, [])
  else
    match env.etl rt with
    | .ok =>
        match env.db2 rt with
        | .error _ => (Option.none, [.etlSubmit rt, .dbRequery rt])
        | .ok recs =>
            if recs.isEmpty then (Option.none, [.etlSubmit rt, .dbRequery rt])
            else (some ⟨recs, some "finnhub"⟩, [.etlSubmit rt, .dbRequery rt])
    | .timeout => (Option.none, [.etlSubmit rt])
    | .fail => (Option.none, [.etlSubmit rt])

/-- One activation of the `fetch_financials` body
(`services/financials.py:26-156`) in the extended model: the outcome
(the body may raise), the tier trace, and the next legacy-call
occasion.  An exception from the first database query or from
`fetch_yahoo_financials` reaches the `except` at line 149, which
answers with one legacy call whose outcome passes through.  A raise
from the recursive annual call (`recurse`) is caught there too.  In the
final `else`, a raise from the line-148 legacy call is caught at line
149 and a *second* legacy call is made. -/
def finBodyE (env : FinEnvE) (freq : String) (flag : Bool) (k : Nat)
    (recurse : Nat → (Except PyErr FinRes × List FinEv) × Nat) :
    (Except PyErr FinRes × List FinEv) × Nat :=
  let rt := if freq = "quarterly" then "quarterly" else "annual"
  match env.db1 rt with
  | .error _ =>
      ((env.legacy k freq, [.dbQuery rt, .legacyCall freq]), k + 1)
  | .ok recs =>
      if ¬ recs.isEmpty then
        ((.ok ⟨recs, some "finnhub"⟩, [.dbQuery rt]), k)
      else
        match etlTierE env rt flag with
        | (some r, etr) => ((.ok r, .dbQuery rt :: etr), k)
        | (Option.none, etr) =>
            match env.yahoo with
            | .error _ =>
                ((env.legacy k freq,
                  (.dbQuery rt :: etr) ++ [.yahooFetch, .legacyCall freq]),
                 k + 1)
            | .ok yd =>
                let ys := if rt = "quarterly" then yd.q else yd.a
                if ¬ ys.isEmpty then
                  ((.ok ⟨ys, some "yahoo_finance"⟩,
                    (.dbQuery rt :: etr) ++ [.yahooFetch]), k)
                else if freq = "quarterly" then
                  match recurse k with
                  | ((.ok r, rtr), k₁) =>
                      ((.ok r, (.dbQuery rt :: etr) ++ .yahooFetch :: rtr), k₁)
                  | ((.error _, rtr), k₁) =>
                      ((env.legacy k₁ freq,
                        (.dbQuery rt :: etr)
                          ++ .yahooFetch :: rtr ++ [.legacyCall freq]),
                       k₁ + 1)
                else
                  let hc := env.hardcoded rt
                  if ¬ hc.data.isEmpty then
                    ((.ok hc,
                      (.dbQuery rt :: etr)
                        ++ [.yahooFetch, .hardcodedLookup rt]), k)
                  else
                    match env.legacy k freq with
                    | .ok r =>
                        ((.ok r,
                          (.dbQuery rt :: etr)
                            ++ [.yahooFetch, .hardcodedLookup rt,
                                .legacyCall freq]), k + 1)
                    | .error _ =>
                        ((env.legacy (k + 1) freq,
                          (.dbQuery rt :: etr)
                            ++ [.yahooFetch, .hardcodedLookup rt,
                                .legacyCall freq, .legacyCall freq]), k + 2)

/-- Recursion argument for activations that never recurse. -/
def noRecurse : Nat → (Except PyErr FinRes × List FinEv) × Nat :=
  fun k => ((.ok ⟨[], Option.none⟩, []), k)

/-- The recursive annual call as seen through its adaptive-cache
wrapper. -/
def annualCallE (env : FinEnvE) (flag : Bool) (k : Nat) :
    (Except PyErr FinRes × List FinEv) × Nat :=
  match env.annualCache with
  | .hitValue v => ((.ok v, []), k)
  | .hitError e => ((.error e, []), k)
  | .miss => finBodyE env "annual" flag k noRecurse

/-- A full orchestrator invocation in the extended model (the top-level
call itself entered on a cache miss, which is the claim's "single
orchestrator invocation"). -/
def fetchFinancialsE (env : FinEnvE) (freq : String) (flag : Bool) :
    (Except PyErr FinRes × List FinEv) × Nat :=
  finBodyE env freq flag 0 (annualCallE env flag)

/-- The trace visits tiers in canonically nondecreasing order (repeats
allowed, as for the doubled legacy call). -/
def tierNondecreasing : List FinEv → Bool
  | [] => true
  | [_] => true
  | a :: b :: rest =>
      decide (tierRank a ≤ tierRank b) && tierNondecreasing (b :: rest)

theorem etlTierE_trace (env : FinEnvE) (rt : String) (flag : Bool) :
    (etlTierE env rt flag).2 = [] ∨
    (etlTierE env rt flag).2 = [.etlSubmit rt] ∨
    (etlTierE env rt flag).2 = [.etlSubmit rt, .dbRequery rt] := by
  unfold etlTierE
  by_cases hf : flag
  · simp [hf]
  · simp only [hf, if_false, Bool.false_eq_true]
    cases env.etl rt with
    | ok =>
        cases env.db2 rt with
        | error e => simp
        | ok recs =>
            by_cases hre : recs.isEmpty <;> simp [hre]
    | timeout => simp
    | fail => simp

theorem finBodyE_annual_cases (env : FinEnvE) (flag : Bool) (k : Nat)
    (rec : Nat → (Except PyErr FinRes × List FinEv) × Nat) :
    (finBodyE env "annual" flag k rec).1.2
        = [.dbQuery "annual", .legacyCall "annual"] ∨
    (finBodyE env "annual" flag k rec).1.2 = [.dbQuery "annual"] ∨
    (∃ etr, (etlTierE env "annual" flag).2 = etr ∧
      ((finBodyE env "annual" flag k rec).1.2 = .dbQuery "annual" :: etr ∨
       (finBodyE env "annual" flag k rec).1.2
         = (.dbQuery "annual" :: etr) ++ [.yahooFetch] ∨
       (finBodyE env "annual" flag k rec).1.2
         = (.dbQuery "annual" :: etr) ++ [.yahooFetch, .legacyCall "annual"] ∨
       (finBodyE env "annual" flag k rec).1.2
         = (.dbQuery "annual" :: etr)
             ++ [.yahooFetch, .hardcodedLookup "annual"] ∨
       (finBodyE env "annual" flag k rec).1.2
         = (.dbQuery "annual" :: etr)
             ++ [.yahooFetch, .hardcodedLookup "annual",
                 .legacyCall "annual"] ∨
       ((finBodyE env "annual" flag k rec).1.2
         = (.dbQuery "annual" :: etr)
             ++ [.yahooFetch, .hardcodedLookup "annual",
                 .legacyCall "annual", .legacyCall "annual"] ∧
        ∃ e, env.legacy k "annual" = .error e))) := by
  have h : ("annual" : String) ≠ "quarterly" := by decide
  unfold finBodyE
  simp only [if_neg h]
  rcases hdb : env.db1 "annual" with e | recs
  · exact .inl rfl
  · by_cases hre : recs.isEmpty
    · simp only [hre, not_true, if_false, Bool.false_eq_true]
      refine .inr (.inr ?_)
      rcases hetl : etlTierE env "annual" flag with ⟨o, etr⟩
      refine ⟨etr, rfl, ?_⟩
      cases o with
      | some r0 => exact .inl rfl
      | none =>
          rcases hy : env.yahoo with e | yd
          · refine .inr (.inr (.inl ?_))
            rfl
          · by_cases hya : yd.a.isEmpty
            · by_cases hhc : (env.hardcoded "annual").data.isEmpty
              · rcases hleg : env.legacy k "annual" with e₁ | r₁
                · refine .inr (.inr (.inr (.inr (.inr ⟨?_, e₁, rfl⟩))))
                  simp [hya, hhc]
                · refine .inr (.inr (.inr (.inr (.inl ?_))))
                  simp [hya, hhc]
              · refine .inr (.inr (.inr (.inl ?_)))
                simp [hya, hhc]
            · refine .inr (.inl ?_)
              simp [hya]
    · simp only [hre, not_false_iff, if_true, Bool.false_eq_true]
      exact .inr (.inl trivial)

theorem finBodyE_primary (env : FinEnvE) (freq : String) (flag : Bool)
    (k : Nat) (rec : Nat → (Except PyErr FinRes × List FinEv) × Nat)
    (recs : List Nat)
    (hdb : env.db1 (if freq = "quarterly" then "quarterly" else "annual")
            = .ok recs)
    (hne : recs ≠ []) :
    finBodyE env freq flag k rec
      = ((.ok ⟨recs, some "finnhub"⟩,
          [.dbQuery (if freq = "quarterly" then "quarterly" else "annual")]),
         k) := by
  have h2 : recs.isEmpty = false := by
    cases recs with
    | nil => exact absurd rfl hne
    | cons a t => rfl
  unfold finBodyE
  simp only [hdb, h2, not_false_iff, if_true, Bool.false_eq_true]

theorem finBodyE_delegates (env : FinEnvE) (flag : Bool) (k : Nat)
    (rec : Nat → (Except PyErr FinRes × List FinEv) × Nat)
    (yd : YahooData) (etr : List FinEv)
    (hdb : env.db1 "quarterly" = .ok [])
    (hetl : etlTierE env "quarterly" flag = (Option.none, etr))
    (hy : env.yahoo = .ok yd) (hyq : yd.q = []) :
    finBodyE env "quarterly" flag k rec
      = match rec k with
        | ((.ok r, rtr), k₁) =>
            ((.ok r, (.dbQuery "quarterly" :: etr) ++ .yahooFetch :: rtr), k₁)
        | ((.error _, rtr), k₁) =>
            ((env.legacy k₁ "quarterly",
              (.dbQuery "quarterly" :: etr)
                ++ .yahooFetch :: rtr ++ [.legacyCall "quarterly"]),
             k₁ + 1) := by
  unfold finBodyE
  simp only [eq_self_iff_true, if_true, hdb, hetl, hy, hyq,
    List.isEmpty_nil, not_true, if_false, Bool.false_eq_true]

/-- Extended all-empty environment: empty store before and after the
ETL run, empty Yahoo sections, no hardcoded entry, a legacy call that
returns an empty payload, and a cold annual cache. -/
def emptyFinEnvE : FinEnvE where
  db1 := fun _ => .ok []
  db2 := fun _ => .ok []
  etl := fun _ => .ok
  yahoo := .ok ⟨[], []⟩
  hardcoded := fun _ => ⟨[], some "No Data Available"⟩
  legacy := fun _ _ => .ok ⟨[], Option.none⟩
  annualCache := .miss

/-- Extended environment whose primary store has annual records. -/
def primaryFinEnvE : FinEnvE :=
  { emptyFinEnvE with db1 := fun _ => .ok [1] }

/-- Extended environment with a valid cached annual result. -/
def warmFinEnvE : FinEnvE :=
  { emptyFinEnvE with annualCache := .hitValue ⟨[7], some "finnhub"⟩ }

/-- Extended environment with a cached annual failure. -/
def poisonedFinEnvE : FinEnvE :=
  { emptyFinEnvE with annualCache := .hitError ⟨"ValueError", "bad"⟩ }

/-- Extended environment whose first legacy call raises
`RateLimitExceeded` (quota hit) and whose second succeeds. -/
def throttledFinEnvE : FinEnvE :=
  { emptyFinEnvE with
      legacy := fun n _ =>
        if n = 0 then .error ⟨"RateLimitExceeded", "quota"⟩
        else .ok ⟨[], Option.none⟩ }

/-- C6 (amended): within a single orchestrator invocation the tiers are
visited in canonically nondecreasing order (store lookup → refresh →
recheck → secondary → static → legacy).  For an annual invocation the
order is strictly increasing — each tier at most once — whenever the
legacy call does not raise; a raising legacy call (e.g.
`RateLimitExceeded` from its rate-limiting wrapper) is caught by the
outer handler and the legacy tier runs a *second* time.  A non-empty
primary-store lookup is terminal for any frequency.  A quarterly
invocation that reaches the secondary tier without quarterly data
invokes the annual variant through the adaptive cache: on a cache miss
the full annual tier chain runs again after the quarterly secondary
tier; on a valid cached annual value that value is returned with no
further tier executed; on a cached annual failure the re-raised error
is caught and the legacy tier is called for quarterly reports. -/
theorem fallback_tier_order (env : FinEnvE) (flag : Bool) :
    tierNondecreasing (fetchFinancialsE env "annual" flag).1.2 = true ∧
    (∀ lr, env.legacy 0 "annual" = .ok lr →
      tierOrdered (fetchFinancialsE env "annual" flag).1.2 = true) ∧
    (∀ freq recs,
      env.db1 (if freq = "quarterly" then "quarterly" else "annual")
        = .ok recs →
      recs ≠ [] →
      fetchFinancialsE env freq flag
        = ((.ok ⟨recs, some "finnhub"⟩,
            [.dbQuery (if freq = "quarterly" then "quarterly" else "annual")]),
           0)) ∧
    (∀ yd etr r rtr k₁,
      env.annualCache = .miss →
      env.db1 "quarterly" = .ok [] →
      etlTierE env "quarterly" flag = (Option.none, etr) →
      env.yahoo = .ok yd → yd.q = [] →
      finBodyE env "annual" flag 0 noRecurse = ((.ok r, rtr), k₁) →
      fetchFinancialsE env "quarterly" flag
        = ((.ok r, (.dbQuery "quarterly" :: etr) ++ .yahooFetch :: rtr),
           k₁)) ∧
    (∀ yd etr v,
      env.annualCache = .hitValue v →
      env.db1 "quarterly" = .ok [] →
      etlTierE env "quarterly" flag = (Option.none, etr) →
      env.yahoo = .ok yd → yd.q = [] →
      fetchFinancialsE env "quarterly" flag
        = ((.ok v, (.dbQuery "quarterly" :: etr) ++ [.yahooFetch]), 0)) ∧
    (∀ yd etr e,
      env.annualCache = .hitError e →
      env.db1 "quarterly" = .ok [] →
      etlTierE env "quarterly" flag = (Option.none, etr) →
      env.yahoo = .ok yd → yd.q = [] →
      fetchFinancialsE env "quarterly" flag
        = ((env.legacy 0 "quarterly",
            (.dbQuery "quarterly" :: etr)
              ++ [.yahooFetch, .legacyCall "quarterly"]), 1)) ∧
    (∀ yd etr e,
      env.db1 "annual" = .ok [] →
      etlTierE env "annual" flag = (Option.none, etr) →
      env.yahoo = .ok yd → yd.a = [] →
      (env.hardcoded "annual").data = [] →
      env.legacy 0 "annual" = .error e →
      fetchFinancialsE env "annual" flag
        = ((env.legacy 1 "annual",
            (.dbQuery "annual" :: etr)
              ++ [.yahooFetch, .hardcodedLookup "annual",
                  .legacyCall "annual", .legacyCall "annual"]), 2)) := by
  refine ⟨?_, ?_, ?_, ?_, ?_, ?_, ?_⟩
  · show tierNondecreasing
      (finBodyE env "annual" flag 0 (annualCallE env flag)).1.2 = true
    rcases finBodyE_annual_cases env flag 0 (annualCallE env flag)
      with h | h | ⟨etr, hetr, hc⟩
    · rw [h]; rfl
    · rw [h]; rfl
    · have htr := etlTierE_trace env "annual" flag
      rw [hetr] at htr
      rcases hc with h | h | h | h | h | ⟨h, e, he⟩ <;> rw [h] <;>
        rcases htr with h1 | h1 | h1 <;> subst h1 <;> rfl
  · intro lr hleg
    show tierOrdered
      (finBodyE env "annual" flag 0 (annualCallE env flag)).1.2 = true
    rcases finBodyE_annual_cases env flag 0 (annualCallE env flag)
      with h | h | ⟨etr, hetr, hc⟩
    · rw [h]; rfl
    · rw [h]; rfl
    · have htr := etlTierE_trace env "annual" flag
      rw [hetr] at htr
      rcases hc with h | h | h | h | h | ⟨h, e, he⟩
      · rw [h]; rcases htr with h1 | h1 | h1 <;> subst h1 <;> rfl
      · rw [h]; rcases htr with h1 | h1 | h1 <;> subst h1 <;> rfl
      · rw [h]; rcases htr with h1 | h1 | h1 <;> subst h1 <;> rfl
      · rw [h]; rcases htr with h1 | h1 | h1 <;> subst h1 <;> rfl
      · rw [h]; rcases htr with h1 | h1 | h1 <;> subst h1 <;> rfl
      · rw [hleg] at he
        simp at he
  · intro freq recs hdb hne
    unfold fetchFinancialsE
    exact finBodyE_primary env freq flag 0 (annualCallE env flag) recs hdb hne
  · intro yd etr r rtr k₁ hmiss hdb hetl hy hyq hbody
    unfold fetchFinancialsE
    rw [finBodyE_delegates env flag 0 (annualCallE env flag) yd etr hdb hetl
      hy hyq]
    have hrec : annualCallE env flag 0 = ((.ok r, rtr), k₁) := by
      unfold annualCallE
      rw [hmiss]
      exact hbody
    rw [hrec]
  · intro yd etr v hv hdb hetl hy hyq
    unfold fetchFinancialsE
    rw [finBodyE_delegates env flag 0 (annualCallE env flag) yd etr hdb hetl
      hy hyq]
    have hrec : annualCallE env flag 0 = ((.ok v, []), 0) := by
      unfold annualCallE
      rw [hv]
    rw [hrec]
  · intro yd etr e he hdb hetl hy hyq
    unfold fetchFinancialsE
    rw [finBodyE_delegates env flag 0 (annualCallE env flag) yd etr hdb hetl
      hy hyq]
    have hrec : annualCallE env flag 0 = ((.error e, []), 0) := by
      unfold annualCallE
      rw [he]
    rw [hrec]
    simp
  · intro yd etr e hdb hetl hy hya hhc hleg
    have h : ("annual" : String) ≠ "quarterly" := by decide
    unfold fetchFinancialsE finBodyE
    simp only [if_neg h, hdb, hetl, hy, hya, hhc, hleg, List.isEmpty_nil,
      not_true, if_false, Bool.false_eq_true]

theorem fallback_tier_order_witness :
    tierNondecreasing (fetchFinancialsE emptyFinEnvE "annual" false).1.2
      = true ∧
    tierOrdered (fetchFinancialsE emptyFinEnvE "annual" false).1.2 = true ∧
    fetchFinancialsE primaryFinEnvE "annual" false
      = ((.ok ⟨[1], some "finnhub"⟩, [.dbQuery "annual"]), 0) ∧
    fetchFinancialsE emptyFinEnvE "quarterly" false
      = ((.ok ⟨[], Option.none⟩,
          [.dbQuery "quarterly", .etlSubmit "quarterly",
           .dbRequery "quarterly", .yahooFetch, .dbQuery "annual",
           .etlSubmit "annual", .dbRequery "annual", .yahooFetch,
           .hardcodedLookup "annual", .legacyCall "annual"]), 1) ∧
    fetchFinancialsE warmFinEnvE "quarterly" false
      = ((.ok ⟨[7], some "finnhub"⟩,
          [.dbQuery "quarterly", .etlSubmit "quarterly",
           .dbRequery "quarterly", .yahooFetch]), 0) ∧
    fetchFinancialsE poisonedFinEnvE "quarterly" false
      = ((.ok ⟨[], Option.none⟩,
          [.dbQuery "quarterly", .etlSubmit "quarterly",
           .dbRequery "quarterly", .yahooFetch, .legacyCall "quarterly"]),
         1) ∧
    fetchFinancialsE throttledFinEnvE "annual" false
      = ((.ok ⟨[], Option.none⟩,
          [.dbQuery "annual", .etlSubmit "annual", .dbRequery "annual",
           .yahooFetch, .hardcodedLookup "annual", .legacyCall "annual",
           .legacyCall "annual"]), 2) := by
  have hE := fallback_tier_order emptyFinEnvE false
  have hP := fallback_tier_order primaryFinEnvE false
  have hW := fallback_tier_order warmFinEnvE false
  have hX := fallback_tier_order poisonedFinEnvE false
  have hT := fallback_tier_order throttledFinEnvE false
  refine ⟨hE.1, hE.2.1 ⟨[], Option.none⟩ (by rfl), ?_, ?_, ?_, ?_, ?_⟩
  · have h := hP.2.2.1 "annual" [1] (by rfl) (by decide)
    simpa using h
  · have h := hE.2.2.2.1 ⟨[], []⟩
      [.etlSubmit "quarterly", .dbRequery "quarterly"]
      (⟨[], Option.none⟩ : FinRes)
      [.dbQuery "annual", .etlSubmit "annual", .dbRequery "annual",
       .yahooFetch, .hardcodedLookup "annual", .legacyCall "annual"] 1
      (by rfl) (by rfl) (by rfl) (by rfl) (by rfl) (by rfl)
    simpa using h
  · have h := hW.2.2.2.2.1 ⟨[], []⟩
      [.etlSubmit "quarterly", .dbRequery "quarterly"]
      ⟨[7], some "finnhub"⟩ (by rfl) (by rfl) (by rfl) (by rfl) (by rfl)
    simpa using h
  · have h := hX.2.2.2.2.2.1 ⟨[], []⟩
      [.etlSubmit "quarterly", .dbRequery "quarterly"]
      ⟨"ValueError", "bad"⟩ (by rfl) (by rfl) (by rfl) (by rfl) (by rfl)
    simpa using h
  · have h := hT.2.2.2.2.2.2 ⟨[], []⟩
      [.etlSubmit "annual", .dbRequery "annual"]
      ⟨"RateLimitExceeded", "quota"⟩ (by rfl) (by rfl) (by rfl) (by rfl)
      (by rfl) (by rfl)
    simpa using h

/-- C6 counterexample: in an environment where every tier is empty and
the annual cache is cold, a single quarterly invocation executes a
*second* primary-store lookup (and a second refresh submission and a
second secondary-source call, for annual reports) after the secondary
tier, so the tiers do not execute in the claimed fixed order
store → refresh → recheck → secondary → static → legacy. -/
theorem fallback_tier_order_cex :
    (fetchFinancialsE emptyFinEnvE "quarterly" false).1.2
      = [.dbQuery "quarterly", .etlSubmit "quarterly",
         .dbRequery "quarterly", .yahooFetch, .dbQuery "annual",
         .etlSubmit "annual", .dbRequery "annual", .yahooFetch,
         .hardcodedLookup "annual", .legacyCall "annual"] ∧
    tierOrdered (fetchFinancialsE emptyFinEnvE "quarterly" false).1.2
      = false := by
  exact ⟨rfl, rfl⟩

/-- C7 (amended): the `source` field of an annual orchestrator result
is `"finnhub"` when the *primary* store tier terminates, `"finnhub"`
again — not a distinct label — when the *refreshed* store tier
terminates, `"yahoo_finance"` for the secondary tier, the static
table's own `source` value for the static tier, and for the legacy tier
the legacy dict is returned as-is: the orchestrator adds no `source`
field to it at all. -/
theorem fallback_source_labels (env : FinEnv) (flag : Bool) :
    (∀ recs, env.db1 "annual" = .ok recs → recs ≠ [] →
      (fetchFinancials env "annual" flag).1 = ⟨recs, some "finnhub"⟩) ∧
    (∀ recs, env.db1 "annual" = .ok [] → env.etl "annual" = .ok →
      env.db2 "annual" = .ok recs → recs ≠ [] →
      (fetchFinancials env "annual" false).1 = ⟨recs, some "finnhub"⟩) ∧
    (∀ yd etr, env.db1 "annual" = .ok [] →
      etlTier env "annual" flag = (Option.none, etr) →
      env.yahoo = .ok yd → yd.a ≠ [] →
      (fetchFinancials env "annual" flag).1
        = ⟨yd.a, some "yahoo_finance"⟩) ∧
    (∀ yd etr, env.db1 "annual" = .ok [] →
      etlTier env "annual" flag = (Option.none, etr) →
      env.yahoo = .ok yd → yd.a = [] →
      (env.hardcoded "annual").data ≠ [] →
      (fetchFinancials env "annual" flag).1 = env.hardcoded "annual") ∧
    (∀ yd etr, env.db1 "annual" = .ok [] →
      etlTier env "annual" flag = (Option.none, etr) →
      env.yahoo = .ok yd → yd.a = [] →
      (env.hardcoded "annual").data = [] →
      (fetchFinancials env "annual" flag).1 = env.legacy "annual") := by
  refine ⟨?_, ?_, ?_, ?_, ?_⟩
  · intro recs hdb hne
    unfold fetchFinancials
    rw [finBody_primary env "annual" flag _ recs (by simpa using hdb) hne]
  · intro recs hdb hetl hdb2 hne
    unfold fetchFinancials
    rw [finBody_refreshed env _ recs hdb hetl hdb2 hne]
  · intro yd etr hdb hetl hy hya
    unfold fetchFinancials
    rw [finBody_yahoo_annual env flag _ yd etr hdb hetl hy hya]
  · intro yd etr hdb hetl hy hya hhc
    unfold fetchFinancials
    rw [finBody_hardcoded_annual env flag _ yd etr hdb hetl hy hya hhc]
  · intro yd etr hdb hetl hy hya hhc
    unfold fetchFinancials
    rw [finBody_legacy_annual env flag _ yd etr hdb hetl hy hya hhc]

theorem fallback_source_labels_witness :
    (fetchFinancials primaryFinEnv "annual" false).1
      = ⟨[1], some "finnhub"⟩ ∧
    (fetchFinancials refreshedFinEnv "annual" false).1
      = ⟨[2], some "finnhub"⟩ ∧
    (fetchFinancials yahooFinEnv "annual" false).1
      = ⟨[3], some "yahoo_finance"⟩ ∧
    (fetchFinancials hardcodedFinEnv "annual" false).1
      = ⟨[4], some "Aurora Cannabis Investor Relations"⟩ ∧
    (fetchFinancials emptyFinEnv "annual" false).1 = ⟨[], Option.none⟩ := by
  refine ⟨?_, ?_, ?_, ?_, ?_⟩
  · exact (fallback_source_labels primaryFinEnv false).1 [1] (by rfl)
      (by decide)
  · exact (fallback_source_labels refreshedFinEnv false).2.1 [2] (by rfl)
      (by rfl) (by rfl) (by decide)
  · have h := (fallback_source_labels yahooFinEnv false).2.2.1 ⟨[], [3]⟩
      [.etlSubmit "annual", .dbRequery "annual"] (by rfl) (by rfl) (by rfl)
      (by decide)
    simpa using h
  · have h := (fallback_source_labels hardcodedFinEnv false).2.2.2.1
      ⟨[], []⟩ [.etlSubmit "annual", .dbRequery "annual"] (by rfl) (by rfl)
      (by rfl) (by rfl) (by decide)
    simpa using h
  · have h := (fallback_source_labels emptyFinEnv false).2.2.2.2
      ⟨[], []⟩ [.etlSubmit "annual", .dbRequery "annual"] (by rfl) (by rfl)
      (by rfl) (by rfl) (by rfl)
    simpa using h

/-- C7 counterexample: the claim requires `source` to distinguish
`primary_store` from `refreshed_store` and to label legacy results
`legacy_api`.  In the code both store tiers label the result
`"finnhub"` — the two runs below terminate at different tiers (their
traces differ) yet carry the identical label — and a result delivered
by the legacy tier carries no `source` field at all. -/
theorem fallback_source_labels_cex :
    fetchFinancials primaryFinEnv "annual" false
      = (⟨[1], some "finnhub"⟩, [.dbQuery "annual"]) ∧
    fetchFinancials refreshedFinEnv "annual" false
      = (⟨[2], some "finnhub"⟩,
         [.dbQuery "annual", .etlSubmit "annual", .dbRequery "annual"]) ∧
    (fetchFinancials primaryFinEnv "annual" false).1.source
      = (fetchFinancials refreshedFinEnv "annual" false).1.source ∧
    (fetchFinancials emptyFinEnv "annual" false).1.source = Option.none := by
  exact ⟨rfl, rfl, rfl, rfl⟩

theorem countEtl_cons_dbQuery (rt : String) (tr : List FinEv) :
    countEtlSubmits (.dbQuery rt :: tr) = countEtlSubmits tr := rfl

theorem countEtl_append (a b : List FinEv) :
    countEtlSubmits (a ++ b) = countEtlSubmits a + countEtlSubmits b := by
  simp [countEtlSubmits, List.filter_append]

theorem countEtl_etlTier_le (env : FinEnv) (rt : String) (flag : Bool) :
    countEtlSubmits (etlTier env rt flag).2 ≤ 1 := by
  rcases etlTier_trace env rt flag with h | h | h <;> rw [h]
  · decide
  · have h1 : countEtlSubmits [FinEv.etlSubmit rt] = 1 := rfl
    omega
  · have h1 : countEtlSubmits [FinEv.etlSubmit rt, FinEv.dbRequery rt] = 1 := rfl
    omega

theorem countEtl_lateTiers_notq (env : FinEnv) (rt freq : String)
    (r : FinRes × List FinEv) (h : freq ≠ "quarterly") :
    countEtlSubmits (lateTiers env freq rt r).2 = 0 := by
  rcases lateTiers_trace env rt freq r h with h1 | h1 | h1 | h1 <;>
    rw [h1] <;> rfl

theorem countEtl_lateTiers_q (env : FinEnv) (rt : String)
    (r : FinRes × List FinEv) :
    countEtlSubmits (lateTiers env "quarterly" rt r).2
      ≤ countEtlSubmits r.2 := by
  unfold lateTiers
  cases env.yahoo with
  | error e => simp [countEtlSubmits]
  | ok yd =>
      by_cases hys : (if rt = "quarterly" then yd.q else yd.a).isEmpty
      · simp only [hys, Bool.not_true, if_false, if_pos rfl,
          Bool.false_eq_true]
        simp [countEtlSubmits, List.filter_cons]
      · simp only [hys, Bool.not_false, if_true, Bool.false_eq_true]
        simp [countEtlSubmits]

theorem countEtl_finBody_annual_le (env : FinEnv) (flag : Bool)
    (r : FinRes × List FinEv) :
    countEtlSubmits (finBody env "annual" flag r).2 ≤ 1 := by
  have h : ("annual" : String) ≠ "quarterly" := by decide
  unfold finBody
  simp only [if_neg h]
  rcases hdb : env.db1 "annual" with e | recs
  · simp [countEtlSubmits]
  · by_cases hre : recs.isEmpty
    · simp only [hre, not_true, if_false, Bool.false_eq_true]
      rcases hetl : etlTier env "annual" flag with ⟨o, etr⟩
      have hle := countEtl_etlTier_le env "annual" flag
      rw [hetl] at hle
      simp only at hle
      cases o with
      | some r0 =>
          simp only []
          rw [countEtl_cons_dbQuery]
          exact hle
      | none =>
          have h2 := countEtl_lateTiers_notq env "annual" "annual" r h
          show countEtlSubmits
            (.dbQuery "annual" :: etr ++ (lateTiers env "annual" "annual" r).2)
              ≤ 1
          rw [countEtl_append, countEtl_cons_dbQuery, h2]
          omega
    · simp only [hre, not_false_iff, if_true, Bool.false_eq_true]
      simp [countEtlSubmits]

theorem countEtl_finBody_true (env : FinEnv) (freq : String)
    (r : FinRes × List FinEv) (hr : countEtlSubmits r.2 = 0) :
    countEtlSubmits (finBody env freq true r).2 = 0 := by
  simp only [finBody]
  rcases hdb : env.db1 (if freq = "quarterly" then "quarterly" else "annual")
    with e | recs
  · rfl
  · by_cases hre : recs.isEmpty
    · simp only [hre, not_true, if_false, Bool.false_eq_true]
      have hetl : etlTier env
          (if freq = "quarterly" then "quarterly" else "annual") true
            = (Option.none, []) := rfl
      rw [hetl]
      show countEtlSubmits
        ((.dbQuery (if freq = "quarterly" then "quarterly" else "annual")
            :: ([] : List FinEv))
          ++ (lateTiers env freq
                (if freq = "quarterly" then "quarterly" else "annual") r).2)
          = 0
      rw [countEtl_append, countEtl_cons_dbQuery]
      by_cases hfq : freq = "quarterly"
      · subst hfq
        have hq := countEtl_lateTiers_q env "quarterly" r
        have hrt : (if ("quarterly" : String) = "quarterly"
            then ("quarterly" : String) else "annual") = "quarterly" := by
          decide
        rw [hrt]
        have h0 : countEtlSubmits ([] : List FinEv) = 0 := rfl
        omega
      · have h0 : countEtlSubmits ([] : List FinEv) = 0 := rfl
        have h1 := countEtl_lateTiers_notq env
          (if freq = "quarterly" then "quarterly" else "annual") freq r hfq
        omega
    · simp only [hre, not_false_iff, if_true, Bool.false_eq_true]
      rfl

/-- C8 (amended): the "ETL in progress" flag lives in `threading.local`
storage, so it deduplicates refresh submissions only *within one
thread*: an invocation whose own thread-local flag is set submits no
refresh at all; a single annual invocation submits at most one refresh;
but two concurrent invocations in distinct threads each start with
their own flag clear and nothing shared stops the second one, so
together they may submit up to two refreshes — at most one total is not
guaranteed. -/
theorem refresh_flag_thread_local (env env₁ env₂ : FinEnv)
    (freq : String) (flag : Bool) :
    countEtlSubmits (fetchFinancials env freq true).2 = 0 ∧
    countEtlSubmits (fetchFinancials env "annual" flag).2 ≤ 1 ∧
    concurrentEtlSubmits env₁ env₂ "annual" ≤ 2 := by
  refine ⟨?_, ?_, ?_⟩
  · unfold fetchFinancials
    exact countEtl_finBody_true env freq _
      (countEtl_finBody_true env "annual" _ rfl)
  · unfold fetchFinancials
    exact countEtl_finBody_annual_le env flag _
  · unfold concurrentEtlSubmits fetchFinancials
    have a := countEtl_finBody_annual_le env₁ false
      (finBody env₁ "annual" false (⟨[], Option.none⟩, []))
    have b := countEtl_finBody_annual_le env₂ false
      (finBody env₂ "annual" false (⟨[], Option.none⟩, []))
    omega

/-- C8 counterexample: two concurrent invocations for the same symbol
with no store data — each in its own thread, each reading its own
thread-local flag, initially clear — both submit a background refresh:
two submissions, not at most one.  (A single all-empty *quarterly*
invocation even submits the same ETL pipeline twice by itself, via the
delegated annual pass.) -/
theorem refresh_flag_thread_local_cex :
    concurrentEtlSubmits emptyFinEnv emptyFinEnv "annual" = 2 ∧
    ¬ (concurrentEtlSubmits emptyFinEnv emptyFinEnv "annual" ≤ 1) ∧
    countEtlSubmits (fetchFinancials emptyFinEnv "quarterly" false).2
      = 2 := by
  exact ⟨rfl, by decide, rfl⟩
